import Mathlib

/-!
Verification of SystemLoader (src/src/SystemLoader.cc).

A shallow embedding of `ignition::gazebo::SystemLoader` and its private
implementation class.  The loader keeps two `std::unordered_set`s (the
registered search paths and the instantiated plugins) and an
`ignition::plugin::Loader`.  Everything the file calls but does not define
(the environment, the file system, `ignition::common::SystemPaths`,
`ignition::plugin::Loader`, `sdf::Plugin::Load`) is collected in `World`.

Every operation returns an `Outcome`: the C++ return value, the state of the
private object afterwards, and the trace of observable events (diagnostics
written to `ignerr` and calls made to the external collaborators), oldest
first.
-/

namespace GzSim

/-! ## std::unordered_set -/

/-- Iteration order of a `std::unordered_set`.  The container is represented by
the list of its elements in iteration order; `place x l` is the iteration order
after a key `x` that is not in `l` has been inserted.  Where the new key lands
(and whether a rehash moves the others) depends on the hash function and the
library, so only the contents are constrained. -/
structure HashOrder (α : Type) where
  place : α → List α → List α
  place_perm : ∀ (x : α) (l : List α), x ∉ l → (place x l).Perm (x :: l)

/-- Method `std::unordered_set::insert`: no effect when the key is present. -/
def HashOrder.insert {α : Type} [DecidableEq α] (h : HashOrder α) (x : α) (l : List α) :
    List α :=
  if x ∈ l then l else h.place x l

/-- A hash order that iterates in insertion order. -/
def appendOrder (α : Type) : HashOrder α where
  place := fun x l => l ++ [x]
  place_perm := fun x l _ => by
    simp

/-- A hash order that iterates newest first (a new node linked at the head of
the element list, as happens when the key hashes to an empty bucket). -/
def prependOrder (α : Type) : HashOrder α where
  place := fun x l => x :: l
  place_perm := fun x l _ => List.Perm.refl (x :: l)

/-! ## Data -/

/-- The part of `sdf::Plugin` the loader reads: `Filename()` and `Name()`. -/
structure Plugin where
  Filename : String
  Name : String
deriving DecidableEq

/-- An `ignition::plugin::PluginPtr`: `none` is the empty pointer, `some i` points
to plugin instance `i`.  Equality (and hashing) is by instance. -/
abbrev PluginPtr := Option Nat

/-- Same type in the source: `using SystemPluginPtr = ignition::plugin::PluginPtr`. -/
abbrev SystemPluginPtr := PluginPtr

/-- An `sdf::ElementPtr`: `none` is `nullptr`. -/
abbrev ElementPtr (ε : Type) := Option ε

/-- Observable events of a call. -/
inductive Event where
  /-- one message written to `ignerr` (without the trailing `std::endl`) -/
  | ignerr (msg : String)
  /-- a call of `SystemPaths::FindSharedLibrary` on the given combined search list -/
  | FindSharedLibrary (searchList : List String) (libName : String)
  /-- a call of `Loader::LoadLib` -/
  | LoadLib (path : String)
  /-- a call of `Loader::Instantiate` -/
  | Instantiate (name : String)
deriving DecidableEq

/-- True for the events that are calls to the search-path resolver or the loader. -/
def Event.isCall : Event → Bool
  | .ignerr _ => false
  | _ => true

/-- True for diagnostics. -/
def Event.isDiagnostic : Event → Bool
  | .ignerr _ => true
  | _ => false

/-- Everything outside src/src/SystemLoader.cc that the code depends on.
`σ` is the internal state of an `ignition::plugin::Loader`, `ε` the content of an
SDF element. -/
structure World (σ ε : Type) where
  /-- the process environment, `ignition::common::env` -/
  env : String → Option String
  /-- macro `IGN_HOMEDIR` (ignition/common/Util.hh) -/
  IGN_HOMEDIR : String
  /-- macro `IGN_GAZEBO_PLUGIN_INSTALL_DIR` (ignition/gazebo/config.hh) -/
  IGN_GAZEBO_PLUGIN_INSTALL_DIR : String
  /-- the file system: the path of the shared library matching a library name
  in a directory, if that directory holds one -/
  libraryIn : String → String → Option String
  /-- method `ignition::plugin::Loader::LoadLib`: the plugin names of the library, in the
  iteration order of the returned `std::unordered_set`, and the loader afterwards -/
  LoadLib : σ → String → List String × σ
  /-- method `ignition::plugin::Loader::Instantiate` -/
  Instantiate : σ → String → PluginPtr × σ
  /-- query `HasInterface<System>()` on an instance -/
  HasInterfaceSystem : Nat → Bool
  /-- method `sdf::Plugin::Load` on a default-constructed `sdf::Plugin` -/
  PluginLoad : ElementPtr ε → Plugin
  /-- iteration order of `std::unordered_set<std::string>` -/
  pathOrder : HashOrder String
  /-- iteration order of `std::unordered_set<SystemPluginPtr>` -/
  ptrOrder : HashOrder SystemPluginPtr

/-! ## ignition::common::SystemPaths -/

/-- Appends `x` unless it is already listed. -/
def insertUnique (l : List String) (x : String) : List String :=
  if x ∈ l then l else l ++ [x]

/-- Keeps the first occurrence of every entry, in order. -/
def uniq (l : List String) : List String :=
  l.foldl insertUnique []

/-- Splits at every `delim`; `acc` holds the current piece, reversed. -/
def splitAt (delim : Char) : List Char → List Char → List String
  | [], acc => [String.mk acc.reverse]
  | c :: cs, acc =>
    if c = delim then String.mk acc.reverse :: splitAt delim cs []
    else splitAt delim cs (c :: acc)

/-- Modelled from the spec: `ignition::common::SystemPaths` is an external
library class, not under src/.  Spec 4.1, rule 1: the directories listed in the
designated environment variable (colon-delimited), if set. -/
def pathsFromEnv {σ ε : Type} (w : World σ ε) (envName : String) : List String :=
  match w.env envName with
  | none => []
  | some v => (splitAt ':' v.data []).filter (fun d => d ≠ "")

/-- Modelled from the spec: `ignition::common::SystemPaths` (external, not under
src/): the name of the environment variable and the directories added by
`AddPluginPaths`, in the order of the calls. -/
structure SystemPaths where
  pluginPathEnv : String
  pluginPaths : List String
deriving DecidableEq

/-- A default-constructed `SystemPaths`. -/
def SystemPaths.new : SystemPaths := ⟨"", []⟩

/-- Modelled from the spec: `SystemPaths::SetPluginPathEnv` names the environment
variable whose directories come first. -/
def SystemPaths.SetPluginPathEnv (sp : SystemPaths) (envName : String) : SystemPaths :=
  { sp with pluginPathEnv := envName }

/-- Modelled from the spec: `SystemPaths::AddPluginPaths` appends a directory. -/
def SystemPaths.AddPluginPaths (sp : SystemPaths) (path : String) : SystemPaths :=
  { sp with pluginPaths := sp.pluginPaths ++ [path] }

/-- Modelled from the spec: the combined search list of a `SystemPaths` (spec 2
and 4.1): environment directories first, then the added directories,
de-duplicated, insertion order giving the priority. -/
def SystemPaths.searchList {σ ε : Type} (w : World σ ε) (sp : SystemPaths) : List String :=
  uniq (pathsFromEnv w sp.pluginPathEnv ++ sp.pluginPaths)

/-- First match of a library name over a list of directories; empty when no
directory holds it. -/
def firstMatch {σ ε : Type} (w : World σ ε) (dirs : List String) (libName : String) : String :=
  (dirs.findSome? (fun d => w.libraryIn d libName)).getD ""

/-- Modelled from the spec: `SystemPaths::FindSharedLibrary` (external, not under
src/), spec 4.1: asks the combined list, in order, and returns the first match;
the empty string when there is none. -/
def SystemPaths.FindSharedLibrary {σ ε : Type} (w : World σ ε) (sp : SystemPaths)
    (libName : String) : String :=
  firstMatch w (sp.searchList w) libName

/-! ## SystemLoaderPrivate -/

/-- Member `pluginPathEnv` of `SystemLoaderPrivate` (line 111): initialised to this
name and never assigned. -/
def pluginPathEnv : String := "IGN_GAZEBO_SYSTEM_PLUGIN_PATH"

/-- The data members of `SystemLoaderPrivate` (lines 113-120); both sets are
listed in iteration order. -/
structure SystemLoaderPrivate (σ : Type) where
  loader : σ
  systemPluginPaths : List String
  systemPluginsAdded : List SystemPluginPtr

/-- Return value, state afterwards and events of one call. -/
structure Outcome (σ α : Type) where
  ret : α
  state : SystemLoaderPrivate σ
  trace : List Event

/-- Constructor `SystemLoader::SystemLoader()` (lines 124-127), around a freshly
constructed `ignition::plugin::Loader`. -/
def SystemLoader.new {σ : Type} (freshLoader : σ) : SystemLoaderPrivate σ :=
  { loader := freshLoader, systemPluginPaths := [], systemPluginsAdded := [] }

/-- Lines 47-56 of `InstantiateSystemPlugin`: the `SystemPaths` object that is
searched. -/
def systemPathsOf {σ ε : Type} (w : World σ ε) (s : SystemLoaderPrivate σ) : SystemPaths :=
  let systemPaths := SystemPaths.new.SetPluginPathEnv pluginPathEnv
  let systemPaths := s.systemPluginPaths.foldl (fun sp path => sp.AddPluginPaths path) systemPaths
  let homePath := (w.env w.IGN_HOMEDIR).getD ""
  let systemPaths := systemPaths.AddPluginPaths (homePath ++ "/.ignition/gazebo/plugins")
  systemPaths.AddPluginPaths w.IGN_GAZEBO_PLUGIN_INSTALL_DIR

/-- Diagnostic of lines 64-65. -/
def msgNotFound (p : Plugin) : String :=
  "Failed to load system plugin [" ++ p.Filename ++ "] : couldn't find shared library."

/-- Diagnostic of lines 73-75 and 82-84. -/
def msgLoadFailed (p : Plugin) (pathToLib : String) : String :=
  "Failed to load system plugin [" ++ p.Filename ++ "] : couldn't load library on path ["
    ++ pathToLib ++ "]."

/-- Diagnostic of lines 91-93. -/
def msgNoInstance (p : Plugin) (pathToLib : String) : String :=
  "Failed to load system plugin [" ++ p.Name ++ "] : could not instantiate from library ["
    ++ p.Filename ++ "] from path [" ++ pathToLib ++ "]."

/-- Diagnostic of lines 99-101. -/
def msgNoSystem (p : Plugin) (pathToLib : String) : String :=
  "Failed to load system plugin [" ++ p.Name ++ "] : system not found in library  ["
    ++ p.Filename ++ "] from path [" ++ pathToLib ++ "]."

/-- Diagnostic of lines 146-148 and 180-182. -/
def msgEmptyArgument (filename name : String) : String :=
  "Failed to instantiate system plugin: empty argument [(filename): " ++ filename
    ++ "] [(name): " ++ name ++ "]."

/-- Method `SystemLoaderPrivate::InstantiateSystemPlugin` (lines 44-108).  The
second component of the result is the out-parameter `_gzPlugin`. -/
def InstantiateSystemPlugin {σ ε : Type} (w : World σ ε) (s : SystemLoaderPrivate σ)
    (_sdfPlugin : Plugin) (_gzPlugin : PluginPtr) : Outcome σ (Bool × PluginPtr) :=
  let systemPaths := systemPathsOf w s
  let pathToLib := systemPaths.FindSharedLibrary w _sdfPlugin.Filename
  let t1 := [Event.FindSharedLibrary (systemPaths.searchList w) _sdfPlugin.Filename]
  if pathToLib = "" then
    if _sdfPlugin.Name ≠ "ignition::gazebo" then
      ⟨(false, _gzPlugin), s, t1 ++ [Event.ignerr (msgNotFound _sdfPlugin)]⟩
    else
      ⟨(false, _gzPlugin), s, t1⟩
  else
    let loaded := w.LoadLib s.loader pathToLib
    let pluginNames := loaded.1
    let s1 := { s with loader := loaded.2 }
    let t2 := t1 ++ [Event.LoadLib pathToLib]
    match pluginNames with
    | [] => ⟨(false, _gzPlugin), s1, t2 ++ [Event.ignerr (msgLoadFailed _sdfPlugin pathToLib)]⟩
    | pluginName :: _ =>
      if pluginName = "" then
        ⟨(false, _gzPlugin), s1, t2 ++ [Event.ignerr (msgLoadFailed _sdfPlugin pathToLib)]⟩
      else
        let made := w.Instantiate s1.loader _sdfPlugin.Name
        let _gzPlugin := made.1
        let s2 := { s1 with loader := made.2 }
        let t3 := t2 ++ [Event.Instantiate _sdfPlugin.Name]
        match _gzPlugin with
        | none => ⟨(false, _gzPlugin), s2, t3 ++ [Event.ignerr (msgNoInstance _sdfPlugin pathToLib)]⟩
        | some inst =>
          if ¬ w.HasInterfaceSystem inst then
            ⟨(false, _gzPlugin), s2, t3 ++ [Event.ignerr (msgNoSystem _sdfPlugin pathToLib)]⟩
          else
            ⟨(true, _gzPlugin),
              { s2 with systemPluginsAdded := w.ptrOrder.insert _gzPlugin s2.systemPluginsAdded },
              t3⟩

/-! ## SystemLoader -/

/-- Method `SystemLoader::AddSystemPluginPath` (lines 133-136). -/
def AddSystemPluginPath {σ ε : Type} (w : World σ ε) (s : SystemLoaderPrivate σ)
    (_path : String) : SystemLoaderPrivate σ :=
  { s with systemPluginPaths := w.pathOrder.insert _path s.systemPluginPaths }

/-- Method `SystemLoader::LoadPlugin(const sdf::Plugin &)` (lines 173-191). -/
def LoadPlugin {σ ε : Type} (w : World σ ε) (s : SystemLoaderPrivate σ) (_plugin : Plugin) :
    Outcome σ (Option SystemPluginPtr) :=
  let plugin : PluginPtr := none
  if _plugin.Filename = "" ∨ _plugin.Name = "" then
    ⟨none, s, [Event.ignerr (msgEmptyArgument _plugin.Filename _plugin.Name)]⟩
  else
    let r := InstantiateSystemPlugin w s _plugin plugin
    let ret := r.ret.1
    let plugin := r.ret.2
    if ret = true ∧ plugin.isSome = true then
      ⟨some plugin, r.state, r.trace⟩
    else
      ⟨none, r.state, r.trace⟩

/-- Method `SystemLoader::LoadPlugin(const std::string &, const std::string &,
const sdf::ElementPtr &)` (lines 139-157). -/
def LoadPluginNamed {σ ε : Type} (w : World σ ε) (s : SystemLoaderPrivate σ)
    (_filename _name : String) (_sdf : ElementPtr ε) : Outcome σ (Option SystemPluginPtr) :=
  if _filename = "" ∨ _name = "" then
    ⟨none, s, [Event.ignerr (msgEmptyArgument _filename _name)]⟩
  else
    let plugin := w.PluginLoad _sdf
    let plugin := { plugin with Filename := _filename }
    let plugin := { plugin with Name := _name }
    LoadPlugin w s plugin

/-- Method `SystemLoader::LoadPlugin(const sdf::ElementPtr &)` (lines 160-170). -/
def LoadPluginElement {σ ε : Type} (w : World σ ε) (s : SystemLoaderPrivate σ)
    (_sdf : ElementPtr ε) : Outcome σ (Option SystemPluginPtr) :=
  match _sdf with
  | none => ⟨none, s, []⟩
  | some e =>
    let plugin := w.PluginLoad (some e)
    LoadPlugin w s plugin

/-! ## The intermediate values of a load -/

/-- The combined search list handed to `FindSharedLibrary` (lines 47-58). -/
def searchListOf {σ ε : Type} (w : World σ ε) (s : SystemLoaderPrivate σ) : List String :=
  (systemPathsOf w s).searchList w

/-- Local `pathToLib` of `InstantiateSystemPlugin` (line 58). -/
def pathToLib {σ ε : Type} (w : World σ ε) (s : SystemLoaderPrivate σ) (p : Plugin) : String :=
  (systemPathsOf w s).FindSharedLibrary w p.Filename

/-- What `LoadLib` returns at line 70: the plugin names and the loader afterwards. -/
def loadedLib {σ ε : Type} (w : World σ ε) (s : SystemLoaderPrivate σ) (p : Plugin) :
    List String × σ :=
  w.LoadLib s.loader (pathToLib w s p)

/-- What `Instantiate` returns at line 88. -/
def instantiated {σ ε : Type} (w : World σ ε) (s : SystemLoaderPrivate σ) (p : Plugin) :
    PluginPtr × σ :=
  w.Instantiate (loadedLib w s p).2 p.Name

/-- The check of lines 71-86 on the names `LoadLib` returned: there is a first
name and it is not empty. -/
def namesPass (pluginNames : List String) : Bool :=
  match pluginNames with
  | [] => false
  | pluginName :: _ => pluginName ≠ ""

/-- The calls in a trace, diagnostics dropped. -/
def calls (t : List Event) : List Event := t.filter Event.isCall

/-- The diagnostics in a trace. -/
def diagnostics (t : List Event) : List Event := t.filter Event.isDiagnostic

/-- The six ways through `LoadPlugin`. -/
inductive LoadCase {σ ε : Type} (w : World σ ε) (s : SystemLoaderPrivate σ) (p : Plugin) : Prop
  | emptyArgument (h : p.Filename = "" ∨ p.Name = "")
  | notFound (hf : p.Filename ≠ "") (hm : p.Name ≠ "") (h : pathToLib w s p = "")
  | badNames (hf : p.Filename ≠ "") (hm : p.Name ≠ "") (h : pathToLib w s p ≠ "")
      (hn : namesPass (loadedLib w s p).1 = false)
  | noInstance (hf : p.Filename ≠ "") (hm : p.Name ≠ "") (h : pathToLib w s p ≠ "")
      (hn : namesPass (loadedLib w s p).1 = true) (hi : (instantiated w s p).1 = none)
  | noSystem (i : Nat) (hf : p.Filename ≠ "") (hm : p.Name ≠ "") (h : pathToLib w s p ≠ "")
      (hn : namesPass (loadedLib w s p).1 = true) (hi : (instantiated w s p).1 = some i)
      (hs : w.HasInterfaceSystem i = false)
  | ok (i : Nat) (hf : p.Filename ≠ "") (hm : p.Name ≠ "") (h : pathToLib w s p ≠ "")
      (hn : namesPass (loadedLib w s p).1 = true) (hi : (instantiated w s p).1 = some i)
      (hs : w.HasInterfaceSystem i = true)

/-- The home default directory of lines 53-55. -/
def homeDefault {σ ε : Type} (w : World σ ε) : String :=
  (w.env w.IGN_HOMEDIR).getD "" ++ "/.ignition/gazebo/plugins"

/-- The four sources of search directories, highest priority first: the
environment variable, the registered paths (in iteration order), the home
default, the install default. -/
def sources {σ ε : Type} (w : World σ ε) (s : SystemLoaderPrivate σ) : List (List String) :=
  [pathsFromEnv w pluginPathEnv, s.systemPluginPaths, [homeDefault w],
   [w.IGN_GAZEBO_PLUGIN_INSTALL_DIR]]

/-- Calls `AddSystemPluginPath` for every path of `ps`, in order. -/
def registerAll {σ ε : Type} (w : World σ ε) (s : SystemLoaderPrivate σ) (ps : List String) :
    SystemLoaderPrivate σ :=
  ps.foldl (AddSystemPluginPath w) s

/-- The last event of a trace is a diagnostic. -/
def endsWithDiagnostic (t : List Event) : Prop :=
  ∃ msg, t.getLast? = some (Event.ignerr msg)

/-! ## A concrete world

A small loader in the manner of `ignition::plugin::Loader`: it remembers every
plugin name it has seen in a library it loaded and instantiates any name it
remembers.  Instances are numbered; odd numbers are instances of classes that
implement `System`. -/

/-- State of the example loader: the plugin names known so far and the number of
instances created. -/
structure DemoLoader where
  known : List String
  made : Nat
deriving DecidableEq

/-- Looks a key up in an association list. -/
def lookup (k : String) : List (String × List String) → List String
  | [] => []
  | (k1, v) :: rest => if k1 = k then v else lookup k rest

/-- Modelled from the spec: the external dynamic-library loader and file system
(spec 6), as a concrete example.  `files` lists (directory, library name) pairs
present on disk, `libs` the plugin names each library file exports (in iteration
order), `systems` the names of the classes that implement `System`. -/
def demoWorld (envPath : Option String) (files : List (String × String))
    (libs : List (String × List String)) (systems : List String)
    (pathOrder : HashOrder String) : World DemoLoader Plugin where
  env := fun n =>
    if n = "HOME" then some "/home/u"
    else if n = "IGN_GAZEBO_SYSTEM_PLUGIN_PATH" then envPath
    else none
  IGN_HOMEDIR := "HOME"
  IGN_GAZEBO_PLUGIN_INSTALL_DIR := "/usr/lib/gz"
  libraryIn := fun d f => if (d, f) ∈ files then some (d ++ "/lib" ++ f ++ ".so") else none
  LoadLib := fun l path => (lookup path libs, { l with known := l.known ++ lookup path libs })
  Instantiate := fun l name =>
    if name ∈ l.known then
      (some (2 * l.made + (if name ∈ systems then 1 else 0)), { l with made := l.made + 1 })
    else (none, l)
  HasInterfaceSystem := fun i => i % 2 = 1
  PluginLoad := fun e => e.getD ⟨"", ""⟩
  pathOrder := pathOrder
  ptrOrder := appendOrder SystemPluginPtr

/-- A freshly constructed example loader. -/
def DemoLoader.new : DemoLoader := ⟨[], 0⟩

/-- Example world: HOME is /home/u, the environment variable lists /env1 and
/env2, the install directory is /usr/lib/gz, and registered paths iterate newest
first. -/
def demo : World DemoLoader Plugin :=
  demoWorld (some "/env1:/env2")
    [("/usr/lib/gz", "physics"), ("/env2", "physics"), ("/usr/lib/gz", "render"),
     ("/usr/lib/gz", "broken"), ("/usr/lib/gz", "hollow"),
     ("/a", "shared"), ("/b", "shared")]
    [("/env2/libphysics.so", ["Physics"]), ("/usr/lib/gz/libphysics.so", ["Physics"]),
     ("/usr/lib/gz/librender.so", ["Render"]),
     ("/usr/lib/gz/libbroken.so", ["", "Broken"]),
     ("/usr/lib/gz/libhollow.so", []),
     ("/a/libshared.so", ["Shared"]), ("/b/libshared.so", ["Shared"])]
    ["Physics", "Shared", "Broken"]
    (prependOrder String)

/-- A freshly constructed `SystemLoader` in the example world. -/
def fresh : SystemLoaderPrivate DemoLoader := SystemLoader.new DemoLoader.new

/-! ## Case lemmas for InstantiateSystemPlugin and LoadPlugin -/

theorem isp_notFound {σ ε : Type} (w : World σ ε) (s : SystemLoaderPrivate σ) (p : Plugin)
    (g : PluginPtr) (h : pathToLib w s p = "") :
    InstantiateSystemPlugin w s p g =
      ⟨(false, g), s, Event.FindSharedLibrary (searchListOf w s) p.Filename ::
        (if p.Name ≠ "ignition::gazebo" then [Event.ignerr (msgNotFound p)] else [])⟩ := by
  unfold pathToLib at h
  unfold InstantiateSystemPlugin searchListOf
  simp only [h, if_true]
  split <;> simp

theorem isp_badNames {σ ε : Type} (w : World σ ε) (s : SystemLoaderPrivate σ) (p : Plugin)
    (g : PluginPtr) (h : pathToLib w s p ≠ "") (hn : namesPass (loadedLib w s p).1 = false) :
    InstantiateSystemPlugin w s p g =
      ⟨(false, g), { s with loader := (loadedLib w s p).2 },
        [Event.FindSharedLibrary (searchListOf w s) p.Filename,
         Event.LoadLib (pathToLib w s p),
         Event.ignerr (msgLoadFailed p (pathToLib w s p))]⟩ := by
  unfold loadedLib at hn ⊢
  unfold pathToLib at h hn ⊢
  unfold InstantiateSystemPlugin searchListOf
  simp only [h, if_false]
  generalize w.LoadLib s.loader ((systemPathsOf w s).FindSharedLibrary w p.Filename) = r at hn ⊢
  obtain ⟨names, l1⟩ := r
  cases names with
  | nil => simp
  | cons n rest =>
    have : n = "" := by simpa [namesPass] using hn
    simp [this]

theorem isp_noInstance {σ ε : Type} (w : World σ ε) (s : SystemLoaderPrivate σ) (p : Plugin)
    (g : PluginPtr) (h : pathToLib w s p ≠ "") (hn : namesPass (loadedLib w s p).1 = true)
    (hi : (instantiated w s p).1 = none) :
    InstantiateSystemPlugin w s p g =
      ⟨(false, none), { s with loader := (instantiated w s p).2 },
        [Event.FindSharedLibrary (searchListOf w s) p.Filename,
         Event.LoadLib (pathToLib w s p),
         Event.Instantiate p.Name,
         Event.ignerr (msgNoInstance p (pathToLib w s p))]⟩ := by
  unfold instantiated at hi ⊢
  unfold loadedLib at hn hi ⊢
  unfold pathToLib at h hn hi ⊢
  unfold InstantiateSystemPlugin searchListOf
  simp only [h, if_false]
  generalize w.LoadLib s.loader ((systemPathsOf w s).FindSharedLibrary w p.Filename) = r
    at hn hi ⊢
  obtain ⟨names, l1⟩ := r
  cases names with
  | nil => simp [namesPass] at hn
  | cons n rest =>
    have hne : n ≠ "" := by simpa [namesPass] using hn
    simp only [hne, if_false]
    simp only at hi
    generalize w.Instantiate l1 p.Name = m at hi ⊢
    obtain ⟨ptr, l2⟩ := m
    simp only at hi
    subst hi
    simp

theorem isp_noSystem {σ ε : Type} (w : World σ ε) (s : SystemLoaderPrivate σ) (p : Plugin)
    (g : PluginPtr) (i : Nat) (h : pathToLib w s p ≠ "")
    (hn : namesPass (loadedLib w s p).1 = true)
    (hi : (instantiated w s p).1 = some i) (hs : w.HasInterfaceSystem i = false) :
    InstantiateSystemPlugin w s p g =
      ⟨(false, some i), { s with loader := (instantiated w s p).2 },
        [Event.FindSharedLibrary (searchListOf w s) p.Filename,
         Event.LoadLib (pathToLib w s p),
         Event.Instantiate p.Name,
         Event.ignerr (msgNoSystem p (pathToLib w s p))]⟩ := by
  unfold instantiated at hi ⊢
  unfold loadedLib at hn hi ⊢
  unfold pathToLib at h hn hi ⊢
  unfold InstantiateSystemPlugin searchListOf
  simp only [h, if_false]
  generalize w.LoadLib s.loader ((systemPathsOf w s).FindSharedLibrary w p.Filename) = r
    at hn hi ⊢
  obtain ⟨names, l1⟩ := r
  cases names with
  | nil => simp [namesPass] at hn
  | cons n rest =>
    have hne : n ≠ "" := by simpa [namesPass] using hn
    simp only [hne, if_false]
    simp only at hi
    generalize w.Instantiate l1 p.Name = m at hi ⊢
    obtain ⟨ptr, l2⟩ := m
    simp only at hi
    subst hi
    simp [hs]

theorem isp_ok {σ ε : Type} (w : World σ ε) (s : SystemLoaderPrivate σ) (p : Plugin)
    (g : PluginPtr) (i : Nat) (h : pathToLib w s p ≠ "")
    (hn : namesPass (loadedLib w s p).1 = true)
    (hi : (instantiated w s p).1 = some i) (hs : w.HasInterfaceSystem i = true) :
    InstantiateSystemPlugin w s p g =
      ⟨(true, some i),
        { loader := (instantiated w s p).2,
          systemPluginPaths := s.systemPluginPaths,
          systemPluginsAdded := w.ptrOrder.insert (some i) s.systemPluginsAdded },
        [Event.FindSharedLibrary (searchListOf w s) p.Filename,
         Event.LoadLib (pathToLib w s p),
         Event.Instantiate p.Name]⟩ := by
  unfold instantiated at hi ⊢
  unfold loadedLib at hn hi ⊢
  unfold pathToLib at h hn hi ⊢
  unfold InstantiateSystemPlugin searchListOf
  simp only [h, if_false]
  generalize w.LoadLib s.loader ((systemPathsOf w s).FindSharedLibrary w p.Filename) = r
    at hn hi ⊢
  obtain ⟨names, l1⟩ := r
  cases names with
  | nil => simp [namesPass] at hn
  | cons n rest =>
    have hne : n ≠ "" := by simpa [namesPass] using hn
    simp only [hne, if_false]
    simp only at hi
    generalize w.Instantiate l1 p.Name = m at hi ⊢
    obtain ⟨ptr, l2⟩ := m
    simp only at hi
    subst hi
    simp [hs]

theorem lp_empty {σ ε : Type} (w : World σ ε) (s : SystemLoaderPrivate σ) (p : Plugin)
    (h : p.Filename = "" ∨ p.Name = "") :
    LoadPlugin w s p = ⟨none, s, [Event.ignerr (msgEmptyArgument p.Filename p.Name)]⟩ := by
  unfold LoadPlugin
  simp only [h, if_true]

theorem lp_notFound {σ ε : Type} (w : World σ ε) (s : SystemLoaderPrivate σ) (p : Plugin)
    (hf : p.Filename ≠ "") (hm : p.Name ≠ "") (h : pathToLib w s p = "") :
    LoadPlugin w s p =
      ⟨none, s, Event.FindSharedLibrary (searchListOf w s) p.Filename ::
        (if p.Name ≠ "ignition::gazebo" then [Event.ignerr (msgNotFound p)] else [])⟩ := by
  unfold LoadPlugin
  simp [hf, hm, isp_notFound w s p none h]

theorem lp_badNames {σ ε : Type} (w : World σ ε) (s : SystemLoaderPrivate σ) (p : Plugin)
    (hf : p.Filename ≠ "") (hm : p.Name ≠ "") (h : pathToLib w s p ≠ "")
    (hn : namesPass (loadedLib w s p).1 = false) :
    LoadPlugin w s p =
      ⟨none, { s with loader := (loadedLib w s p).2 },
        [Event.FindSharedLibrary (searchListOf w s) p.Filename,
         Event.LoadLib (pathToLib w s p),
         Event.ignerr (msgLoadFailed p (pathToLib w s p))]⟩ := by
  unfold LoadPlugin
  simp [hf, hm, isp_badNames w s p none h hn]

theorem lp_noInstance {σ ε : Type} (w : World σ ε) (s : SystemLoaderPrivate σ) (p : Plugin)
    (hf : p.Filename ≠ "") (hm : p.Name ≠ "") (h : pathToLib w s p ≠ "")
    (hn : namesPass (loadedLib w s p).1 = true) (hi : (instantiated w s p).1 = none) :
    LoadPlugin w s p =
      ⟨none, { s with loader := (instantiated w s p).2 },
        [Event.FindSharedLibrary (searchListOf w s) p.Filename,
         Event.LoadLib (pathToLib w s p),
         Event.Instantiate p.Name,
         Event.ignerr (msgNoInstance p (pathToLib w s p))]⟩ := by
  unfold LoadPlugin
  simp [hf, hm, isp_noInstance w s p none h hn hi]

theorem lp_noSystem {σ ε : Type} (w : World σ ε) (s : SystemLoaderPrivate σ) (p : Plugin)
    (i : Nat) (hf : p.Filename ≠ "") (hm : p.Name ≠ "") (h : pathToLib w s p ≠ "")
    (hn : namesPass (loadedLib w s p).1 = true) (hi : (instantiated w s p).1 = some i)
    (hs : w.HasInterfaceSystem i = false) :
    LoadPlugin w s p =
      ⟨none, { s with loader := (instantiated w s p).2 },
        [Event.FindSharedLibrary (searchListOf w s) p.Filename,
         Event.LoadLib (pathToLib w s p),
         Event.Instantiate p.Name,
         Event.ignerr (msgNoSystem p (pathToLib w s p))]⟩ := by
  unfold LoadPlugin
  simp [hf, hm, isp_noSystem w s p none i h hn hi hs]

theorem lp_ok {σ ε : Type} (w : World σ ε) (s : SystemLoaderPrivate σ) (p : Plugin)
    (i : Nat) (hf : p.Filename ≠ "") (hm : p.Name ≠ "") (h : pathToLib w s p ≠ "")
    (hn : namesPass (loadedLib w s p).1 = true) (hi : (instantiated w s p).1 = some i)
    (hs : w.HasInterfaceSystem i = true) :
    LoadPlugin w s p =
      ⟨some (some i),
        { loader := (instantiated w s p).2,
          systemPluginPaths := s.systemPluginPaths,
          systemPluginsAdded := w.ptrOrder.insert (some i) s.systemPluginsAdded },
        [Event.FindSharedLibrary (searchListOf w s) p.Filename,
         Event.LoadLib (pathToLib w s p),
         Event.Instantiate p.Name]⟩ := by
  unfold LoadPlugin
  simp [hf, hm, isp_ok w s p none i h hn hi hs]

theorem loadCase_total {σ ε : Type} (w : World σ ε) (s : SystemLoaderPrivate σ) (p : Plugin) :
    LoadCase w s p := by
  by_cases hf : p.Filename = ""
  · exact .emptyArgument (Or.inl hf)
  by_cases hm : p.Name = ""
  · exact .emptyArgument (Or.inr hm)
  by_cases h : pathToLib w s p = ""
  · exact .notFound hf hm h
  cases hn : namesPass (loadedLib w s p).1 with
  | false => exact .badNames hf hm h hn
  | true =>
    cases hi : (instantiated w s p).1 with
    | none => exact .noInstance hf hm h hn hi
    | some i =>
      cases hs : w.HasInterfaceSystem i with
      | false => exact .noSystem i hf hm h hn hi hs
      | true => exact .ok i hf hm h hn hi hs

theorem HashOrder.mem_insert {α : Type} [DecidableEq α] (h : HashOrder α) (x y : α)
    (l : List α) : y ∈ h.insert x l ↔ y = x ∨ y ∈ l := by
  unfold HashOrder.insert
  split
  · rename_i hx
    constructor
    · intro hy; exact Or.inr hy
    · rintro (rfl | hy)
      · exact hx
      · exact hy
  · rename_i hx
    rw [(h.place_perm x l hx).mem_iff]
    simp

theorem HashOrder.insert_of_mem {α : Type} [DecidableEq α] (h : HashOrder α) (x : α)
    (l : List α) (hx : x ∈ l) : h.insert x l = l := by
  unfold HashOrder.insert
  simp [hx]

theorem HashOrder.insert_insert {α : Type} [DecidableEq α] (h : HashOrder α) (x : α)
    (l : List α) : h.insert x (h.insert x l) = h.insert x l :=
  h.insert_of_mem x _ ((h.mem_insert x x l).2 (Or.inl rfl))

/-! ## Claims -/

/-- C1: a descriptor whose filename or entry-point name is empty is rejected by both
`LoadPlugin(const sdf::Plugin &)` and `LoadPlugin(filename, name, sdf)`: the
result is absent, the only event is the empty-argument diagnostic (so neither
`FindSharedLibrary` nor `LoadLib` nor `Instantiate` is called), and the state
(loader, `systemPluginPaths`, `systemPluginsAdded`) is unchanged. -/
theorem C1_empty_argument_rejected {σ ε : Type} (w : World σ ε) (s : SystemLoaderPrivate σ)
    (filename name : String) (sdf : ElementPtr ε) (h : filename = "" ∨ name = "") :
    ((LoadPlugin w s ⟨filename, name⟩).ret = none
      ∧ (LoadPlugin w s ⟨filename, name⟩).trace = [Event.ignerr (msgEmptyArgument filename name)]
      ∧ calls (LoadPlugin w s ⟨filename, name⟩).trace = []
      ∧ (LoadPlugin w s ⟨filename, name⟩).state.systemPluginsAdded = s.systemPluginsAdded
      ∧ (LoadPlugin w s ⟨filename, name⟩).state.systemPluginPaths = s.systemPluginPaths
      ∧ (LoadPlugin w s ⟨filename, name⟩).state.loader = s.loader)
    ∧ ((LoadPluginNamed w s filename name sdf).ret = none
      ∧ (LoadPluginNamed w s filename name sdf).trace
          = [Event.ignerr (msgEmptyArgument filename name)]
      ∧ calls (LoadPluginNamed w s filename name sdf).trace = []
      ∧ (LoadPluginNamed w s filename name sdf).state.systemPluginsAdded = s.systemPluginsAdded
      ∧ (LoadPluginNamed w s filename name sdf).state.systemPluginPaths = s.systemPluginPaths
      ∧ (LoadPluginNamed w s filename name sdf).state.loader = s.loader) := by
  constructor
  · rw [lp_empty w s ⟨filename, name⟩ h]
    simp [calls, Event.isCall]
  · unfold LoadPluginNamed
    simp [h, calls, Event.isCall]

/-- Witness for C1 in the example world: an empty filename with a valid name. -/
theorem C1_empty_argument_rejected_witness :
    ("" = "" ∨ "Physics" = "")
    ∧ (LoadPlugin demo fresh ⟨"", "Physics"⟩).ret = none
    ∧ calls (LoadPlugin demo fresh ⟨"", "Physics"⟩).trace = []
    ∧ (LoadPluginNamed demo fresh "" "Physics" none).ret = none
    ∧ calls (LoadPluginNamed demo fresh "" "Physics" none).trace = [] :=
  have h := C1_empty_argument_rejected demo fresh "" "Physics" none (Or.inl rfl)
  ⟨Or.inl rfl, h.1.1, h.1.2.2.1, h.2.1, h.2.2.2.1⟩

/-- C2: `LoadPlugin(descriptor)` returns a handle exactly when filename and name are
non-empty, `FindSharedLibrary` returns a non-empty path, the names returned by
`LoadLib` pass the check, `Instantiate` yields a non-null object and that
object has the `System` interface.  The checks run in this order and the first
failure stops the call (shown by the calls made).  A returned handle is the
object `Instantiate` returned, has the `System` interface, and the registry
afterwards is the registry before with the handle inserted (unchanged when it
was already present). -/
theorem C2_handle_iff_all_steps {σ ε : Type} (w : World σ ε) (s : SystemLoaderPrivate σ)
    (p : Plugin) :
    ((LoadPlugin w s p).ret ≠ none ↔
      (p.Filename ≠ "" ∧ p.Name ≠ "" ∧ pathToLib w s p ≠ ""
        ∧ namesPass (loadedLib w s p).1 = true
        ∧ ∃ i, (instantiated w s p).1 = some i ∧ w.HasInterfaceSystem i = true))
    ∧ ((p.Filename = "" ∨ p.Name = "") → calls (LoadPlugin w s p).trace = [])
    ∧ (p.Filename ≠ "" → p.Name ≠ "" → pathToLib w s p = "" →
        calls (LoadPlugin w s p).trace
          = [Event.FindSharedLibrary (searchListOf w s) p.Filename])
    ∧ (p.Filename ≠ "" → p.Name ≠ "" → pathToLib w s p ≠ "" →
        namesPass (loadedLib w s p).1 = false →
        calls (LoadPlugin w s p).trace
          = [Event.FindSharedLibrary (searchListOf w s) p.Filename,
             Event.LoadLib (pathToLib w s p)])
    ∧ (p.Filename ≠ "" → p.Name ≠ "" → pathToLib w s p ≠ "" →
        namesPass (loadedLib w s p).1 = true →
        calls (LoadPlugin w s p).trace
          = [Event.FindSharedLibrary (searchListOf w s) p.Filename,
             Event.LoadLib (pathToLib w s p), Event.Instantiate p.Name])
    ∧ (∀ h : SystemPluginPtr, (LoadPlugin w s p).ret = some h →
        h = (instantiated w s p).1
        ∧ (∃ i, h = some i ∧ w.HasInterfaceSystem i = true)
        ∧ (LoadPlugin w s p).state.systemPluginsAdded = w.ptrOrder.insert h s.systemPluginsAdded
        ∧ (∀ x, x ∈ (LoadPlugin w s p).state.systemPluginsAdded ↔ x = h ∨ x ∈ s.systemPluginsAdded)
        ∧ (h ∈ s.systemPluginsAdded →
            (LoadPlugin w s p).state.systemPluginsAdded = s.systemPluginsAdded)) := by
  cases loadCase_total w s p with
  | emptyArgument h =>
    rw [lp_empty w s p h]
    have hne : ¬ (p.Filename ≠ "" ∧ p.Name ≠ "") := by
      rcases h with h | h <;> simp [h]
    refine ⟨?_, ?_, ?_, ?_, ?_, ?_⟩
    · constructor
      · intro c; exact absurd rfl c
      · intro c; exact absurd ⟨c.1, c.2.1⟩ hne
    · intro _; simp [calls, Event.isCall]
    · intro hf hm; exact absurd ⟨hf, hm⟩ hne
    · intro hf hm; exact absurd ⟨hf, hm⟩ hne
    · intro hf hm; exact absurd ⟨hf, hm⟩ hne
    · intro h c; simp at c
  | notFound hf hm h =>
    rw [lp_notFound w s p hf hm h]
    refine ⟨?_, ?_, ?_, ?_, ?_, ?_⟩
    · constructor
      · intro c; exact absurd rfl c
      · intro c; exact absurd h c.2.2.1
    · rintro (c | c)
      · exact absurd c hf
      · exact absurd c hm
    · intro _ _ _
      by_cases hs : p.Name = "ignition::gazebo" <;> simp [calls, Event.isCall, hs]
    · intro _ _ c; exact absurd h c
    · intro _ _ c; exact absurd h c
    · intro h c; simp at c
  | badNames hf hm h hn =>
    rw [lp_badNames w s p hf hm h hn]
    refine ⟨?_, ?_, ?_, ?_, ?_, ?_⟩
    · constructor
      · intro c; exact absurd rfl c
      · intro c; rw [hn] at c; simp at c
    · rintro (c | c)
      · exact absurd c hf
      · exact absurd c hm
    · intro _ _ c; exact absurd c h
    · intro _ _ _ _; simp [calls, Event.isCall]
    · intro _ _ _ c; rw [hn] at c; simp at c
    · intro h c; simp at c
  | noInstance hf hm h hn hi =>
    rw [lp_noInstance w s p hf hm h hn hi]
    refine ⟨?_, ?_, ?_, ?_, ?_, ?_⟩
    · constructor
      · intro c; exact absurd rfl c
      · rintro ⟨_, _, _, _, i, c, _⟩; rw [hi] at c; simp at c
    · rintro (c | c)
      · exact absurd c hf
      · exact absurd c hm
    · intro _ _ c; exact absurd c h
    · intro _ _ _ c; rw [hn] at c; simp at c
    · intro _ _ _ _; simp [calls, Event.isCall]
    · intro h c; simp at c
  | noSystem i hf hm h hn hi hs =>
    rw [lp_noSystem w s p i hf hm h hn hi hs]
    refine ⟨?_, ?_, ?_, ?_, ?_, ?_⟩
    · constructor
      · intro c; exact absurd rfl c
      · rintro ⟨_, _, _, _, j, c, hj⟩
        rw [hi] at c
        cases c
        rw [hs] at hj; simp at hj
    · rintro (c | c)
      · exact absurd c hf
      · exact absurd c hm
    · intro _ _ c; exact absurd c h
    · intro _ _ _ c; rw [hn] at c; simp at c
    · intro _ _ _ _; simp [calls, Event.isCall]
    · intro h c; simp at c
  | ok i hf hm h hn hi hs =>
    rw [lp_ok w s p i hf hm h hn hi hs]
    refine ⟨?_, ?_, ?_, ?_, ?_, ?_⟩
    · constructor
      · intro _; exact ⟨hf, hm, h, hn, i, hi, hs⟩
      · intro _ c; simp at c
    · rintro (c | c)
      · exact absurd c hf
      · exact absurd c hm
    · intro _ _ c; exact absurd c h
    · intro _ _ _ c; rw [hn] at c; simp at c
    · intro _ _ _ _; simp [calls, Event.isCall]
    · intro g c
      have hg : g = some i := by
        have := Option.some.inj c
        exact this.symm
      subst hg
      refine ⟨hi.symm, ⟨i, rfl, hs⟩, rfl, ?_, ?_⟩
      · intro x; exact w.ptrOrder.mem_insert (some i) x s.systemPluginsAdded
      · intro hmem; exact w.ptrOrder.insert_of_mem (some i) s.systemPluginsAdded hmem

/-- Witness for C2 in the example world: the physics library is found under /env2,
loads, and its `Physics` class is instantiated and registered. -/
theorem C2_handle_iff_all_steps_witness :
    (LoadPlugin demo fresh ⟨"physics", "Physics"⟩).ret = some (some 1)
    ∧ (LoadPlugin demo fresh ⟨"physics", "Physics"⟩).state.systemPluginsAdded
        = demo.ptrOrder.insert (some 1) fresh.systemPluginsAdded :=
  have h : (LoadPlugin demo fresh ⟨"physics", "Physics"⟩).ret = some (some 1) := by decide
  ⟨h, ((C2_handle_iff_all_steps demo fresh ⟨"physics", "Physics"⟩).2.2.2.2.2 (some 1) h).2.2.1⟩

/-- C3: whenever any `LoadPlugin` overload returns absent, `systemPluginsAdded` is
what it was before the call.  In particular, when the library is found and
loads, and the entry point instantiates to a non-null object without the
`System` interface, `LoadPlugin` returns absent and the registry is unchanged. -/
theorem C3_absent_leaves_registry {σ ε : Type} (w : World σ ε) (s : SystemLoaderPrivate σ)
    (p : Plugin) (filename name : String) (sdf : ElementPtr ε) :
    ((LoadPlugin w s p).ret = none →
      (LoadPlugin w s p).state.systemPluginsAdded = s.systemPluginsAdded)
    ∧ ((LoadPluginNamed w s filename name sdf).ret = none →
      (LoadPluginNamed w s filename name sdf).state.systemPluginsAdded = s.systemPluginsAdded)
    ∧ ((LoadPluginElement w s sdf).ret = none →
      (LoadPluginElement w s sdf).state.systemPluginsAdded = s.systemPluginsAdded)
    ∧ (∀ i, p.Filename ≠ "" → p.Name ≠ "" → pathToLib w s p ≠ "" →
        namesPass (loadedLib w s p).1 = true → (instantiated w s p).1 = some i →
        w.HasInterfaceSystem i = false →
        (LoadPlugin w s p).ret = none
        ∧ (LoadPlugin w s p).state.systemPluginsAdded = s.systemPluginsAdded) := by
  have key : ∀ q : Plugin, (LoadPlugin w s q).ret = none →
      (LoadPlugin w s q).state.systemPluginsAdded = s.systemPluginsAdded := by
    intro q
    cases loadCase_total w s q with
    | emptyArgument h => rw [lp_empty w s q h]; intro _; rfl
    | notFound hf hm h => rw [lp_notFound w s q hf hm h]; intro _; rfl
    | badNames hf hm h hn => rw [lp_badNames w s q hf hm h hn]; intro _; rfl
    | noInstance hf hm h hn hi => rw [lp_noInstance w s q hf hm h hn hi]; intro _; rfl
    | noSystem i hf hm h hn hi hs => rw [lp_noSystem w s q i hf hm h hn hi hs]; intro _; rfl
    | ok i hf hm h hn hi hs => rw [lp_ok w s q i hf hm h hn hi hs]; intro c; simp at c
  refine ⟨key p, ?_, ?_, ?_⟩
  · unfold LoadPluginNamed
    split
    · intro _; rfl
    · exact key _
  · unfold LoadPluginElement
    split
    · intro _; rfl
    · exact key _
  · intro i hf hm h hn hi hs
    rw [lp_noSystem w s p i hf hm h hn hi hs]
    exact ⟨rfl, rfl⟩

/-- Witness for C3 in the example world: the render library loads and `Render`
instantiates, but the object has no `System` interface. -/
theorem C3_absent_leaves_registry_witness :
    (instantiated demo fresh ⟨"render", "Render"⟩).1 = some 0
    ∧ demo.HasInterfaceSystem 0 = false
    ∧ (LoadPlugin demo fresh ⟨"render", "Render"⟩).ret = none
    ∧ (LoadPlugin demo fresh ⟨"render", "Render"⟩).state.systemPluginsAdded = [] :=
  ⟨by decide, by decide,
    ((C3_absent_leaves_registry demo fresh ⟨"render", "Render"⟩ "" "" none).2.2.2 0
      (by decide) (by decide) (by decide) (by decide) (by decide) (by decide)).1,
    (C3_absent_leaves_registry demo fresh ⟨"render", "Render"⟩ "" "" none).1 (by decide)⟩

/-- C6: `AddSystemPluginPath` is idempotent.  Adding `p` twice gives the same state
as adding it once, hence the same registered paths, the same combined search
list and the same outcome of any later `LoadPlugin`; the registered paths
afterwards are `p` and the earlier ones; the registry and the loader are not
changed. -/
theorem C6_add_path_idempotent {σ ε : Type} (w : World σ ε) (s : SystemLoaderPrivate σ)
    (p : String) (q : Plugin) :
    AddSystemPluginPath w (AddSystemPluginPath w s p) p = AddSystemPluginPath w s p
    ∧ (AddSystemPluginPath w (AddSystemPluginPath w s p) p).systemPluginPaths
        = (AddSystemPluginPath w s p).systemPluginPaths
    ∧ searchListOf w (AddSystemPluginPath w (AddSystemPluginPath w s p) p)
        = searchListOf w (AddSystemPluginPath w s p)
    ∧ LoadPlugin w (AddSystemPluginPath w (AddSystemPluginPath w s p) p) q
        = LoadPlugin w (AddSystemPluginPath w s p) q
    ∧ (∀ x, x ∈ (AddSystemPluginPath w s p).systemPluginPaths ↔ x = p ∨ x ∈ s.systemPluginPaths)
    ∧ (AddSystemPluginPath w s p).systemPluginsAdded = s.systemPluginsAdded
    ∧ (AddSystemPluginPath w s p).loader = s.loader := by
  have h : AddSystemPluginPath w (AddSystemPluginPath w s p) p = AddSystemPluginPath w s p := by
    unfold AddSystemPluginPath
    simp [HashOrder.insert_insert]
  refine ⟨h, by rw [h], by rw [h], by rw [h], ?_, rfl, rfl⟩
  intro x
  exact w.pathOrder.mem_insert p x s.systemPluginPaths

/-- Example for C6 in the example world: /a registered twice. -/
theorem C6_add_path_idempotent_witness :
    (AddSystemPluginPath demo (AddSystemPluginPath demo fresh "/a") "/a").systemPluginPaths
      = (AddSystemPluginPath demo fresh "/a").systemPluginPaths :=
  (C6_add_path_idempotent demo fresh "/a" ⟨"shared", "Shared"⟩).2.1

/-- Counterexample to C7 as stated: `LoadPlugin(const sdf::ElementPtr &)` on a null
element returns absent with no diagnostic, and without any library lookup (so
this is not the sentinel case). -/
theorem C7_null_element_silent :
    (LoadPluginElement demo fresh none).ret = none
    ∧ diagnostics (LoadPluginElement demo fresh none).trace = []
    ∧ calls (LoadPluginElement demo fresh none).trace = [] := by
  decide

/-- C7 (amended): a call of `LoadPlugin(const sdf::Plugin &)`, of
`LoadPlugin(filename, name, sdf)` or of `LoadPlugin(const sdf::ElementPtr &)` on
a non-null element that returns absent ends with a diagnostic, unless the
library was not found and the name is "ignition::gazebo".  On a null element
the third form returns absent with no event at all. -/
theorem C7_absent_has_diagnostic {σ ε : Type} (w : World σ ε) (s : SystemLoaderPrivate σ)
    (p : Plugin) (filename name : String) (sdf : ElementPtr ε) (e : ε) :
    ((LoadPlugin w s p).ret = none →
      endsWithDiagnostic (LoadPlugin w s p).trace
      ∨ (pathToLib w s p = "" ∧ p.Name = "ignition::gazebo"))
    ∧ ((LoadPluginNamed w s filename name sdf).ret = none →
      endsWithDiagnostic (LoadPluginNamed w s filename name sdf).trace
      ∨ (pathToLib w s ⟨filename, name⟩ = "" ∧ name = "ignition::gazebo"))
    ∧ ((LoadPluginElement w s (some e)).ret = none →
      endsWithDiagnostic (LoadPluginElement w s (some e)).trace
      ∨ (pathToLib w s (w.PluginLoad (some e)) = ""
          ∧ (w.PluginLoad (some e)).Name = "ignition::gazebo"))
    ∧ LoadPluginElement w s none = ⟨none, s, []⟩ := by
  have key : ∀ q : Plugin, (LoadPlugin w s q).ret = none →
      endsWithDiagnostic (LoadPlugin w s q).trace
      ∨ (pathToLib w s q = "" ∧ q.Name = "ignition::gazebo") := by
    intro q
    cases loadCase_total w s q with
    | emptyArgument h =>
      rw [lp_empty w s q h]; intro _; left; exact ⟨_, rfl⟩
    | notFound hf hm h =>
      rw [lp_notFound w s q hf hm h]; intro _
      by_cases hs : q.Name = "ignition::gazebo"
      · right; exact ⟨h, hs⟩
      · left; exact ⟨msgNotFound q, by simp [hs]⟩
    | badNames hf hm h hn =>
      rw [lp_badNames w s q hf hm h hn]; intro _; left; exact ⟨_, rfl⟩
    | noInstance hf hm h hn hi =>
      rw [lp_noInstance w s q hf hm h hn hi]; intro _; left; exact ⟨_, rfl⟩
    | noSystem i hf hm h hn hi hs =>
      rw [lp_noSystem w s q i hf hm h hn hi hs]; intro _; left; exact ⟨_, rfl⟩
    | ok i hf hm h hn hi hs =>
      rw [lp_ok w s q i hf hm h hn hi hs]; intro c; simp at c
  refine ⟨key p, ?_, ?_, rfl⟩
  · unfold LoadPluginNamed
    split
    · intro _; left; exact ⟨_, rfl⟩
    · exact key ⟨filename, name⟩
  · exact key (w.PluginLoad (some e))

/-- Example for C7 in the example world: a descriptor naming a missing library
fails with a diagnostic as its last event. -/
theorem C7_absent_has_diagnostic_witness :
    (LoadPlugin demo fresh ⟨"levels", "Levels"⟩).ret = none
    ∧ (endsWithDiagnostic (LoadPlugin demo fresh ⟨"levels", "Levels"⟩).trace
      ∨ (pathToLib demo fresh ⟨"levels", "Levels"⟩ = "" ∧ "Levels" = "ignition::gazebo")) :=
  ⟨by decide,
    (C7_absent_has_diagnostic demo fresh ⟨"levels", "Levels"⟩ "" "" none ⟨"", ""⟩).1 (by decide)⟩

theorem lp_calls_pass {σ ε : Type} (w : World σ ε) (s : SystemLoaderPrivate σ) (p : Plugin)
    (hf : p.Filename ≠ "") (hm : p.Name ≠ "") (h : pathToLib w s p ≠ "")
    (hn : namesPass (loadedLib w s p).1 = true) :
    calls (LoadPlugin w s p).trace
      = [Event.FindSharedLibrary (searchListOf w s) p.Filename,
         Event.LoadLib (pathToLib w s p), Event.Instantiate p.Name] := by
  cases hi : (instantiated w s p).1 with
  | none => rw [lp_noInstance w s p hf hm h hn hi]; simp [calls, Event.isCall]
  | some i =>
    cases hs : w.HasInterfaceSystem i with
    | false => rw [lp_noSystem w s p i hf hm h hn hi hs]; simp [calls, Event.isCall]
    | true => rw [lp_ok w s p i hf hm h hn hi hs]; simp [calls, Event.isCall]

theorem namesPass_eq_false_iff (names : List String) :
    namesPass names = false ↔ names = [] ∨ names.head? = some "" := by
  cases names with
  | nil => simp [namesPass]
  | cons n rest => simp [namesPass]

/-- Counterexample to C8 as stated: the library "broken" exports the names "" and
"Broken", iterated in that order.  The set holds a non-empty name, yet the
check fails: `LoadPlugin` returns absent with the "couldn't load library"
diagnostic and `Instantiate` is not called. -/
theorem C8_first_name_only :
    (loadedLib demo fresh ⟨"broken", "Broken"⟩).1 = ["", "Broken"]
    ∧ (∃ n ∈ (loadedLib demo fresh ⟨"broken", "Broken"⟩).1, n ≠ "")
    ∧ (LoadPlugin demo fresh ⟨"broken", "Broken"⟩).ret = none
    ∧ (LoadPlugin demo fresh ⟨"broken", "Broken"⟩).trace
        = [Event.FindSharedLibrary (searchListOf demo fresh) "broken",
           Event.LoadLib "/usr/lib/gz/libbroken.so",
           Event.ignerr (msgLoadFailed ⟨"broken", "Broken"⟩ "/usr/lib/gz/libbroken.so")] := by
  refine ⟨by decide, ⟨"Broken", by decide, by decide⟩, by decide, by decide⟩

/-- C8 (amended): once the library is found, the check on the names returned by
`LoadLib` fails exactly when the set is empty or the first name its iteration
yields is empty; then `LoadPlugin` returns absent with the "couldn't load
library" diagnostic and does not call `Instantiate`.  Otherwise the check
passes and `LoadPlugin` goes on to `Instantiate(entryPointName)`. -/
theorem C8_names_check {σ ε : Type} (w : World σ ε) (s : SystemLoaderPrivate σ) (p : Plugin)
    (hf : p.Filename ≠ "") (hm : p.Name ≠ "") (h : pathToLib w s p ≠ "") :
    (((loadedLib w s p).1 = [] ∨ (loadedLib w s p).1.head? = some "") →
      (LoadPlugin w s p).ret = none
      ∧ (LoadPlugin w s p).trace
          = [Event.FindSharedLibrary (searchListOf w s) p.Filename,
             Event.LoadLib (pathToLib w s p),
             Event.ignerr (msgLoadFailed p (pathToLib w s p))]
      ∧ Event.Instantiate p.Name ∉ (LoadPlugin w s p).trace)
    ∧ (¬ ((loadedLib w s p).1 = [] ∨ (loadedLib w s p).1.head? = some "") →
      calls (LoadPlugin w s p).trace
        = [Event.FindSharedLibrary (searchListOf w s) p.Filename,
           Event.LoadLib (pathToLib w s p), Event.Instantiate p.Name]) := by
  constructor
  · intro hbad
    have hn := (namesPass_eq_false_iff _).2 hbad
    rw [lp_badNames w s p hf hm h hn]
    simp
  · intro hgood
    have hn : namesPass (loadedLib w s p).1 = true := by
      cases hc : namesPass (loadedLib w s p).1 with
      | false => exact absurd ((namesPass_eq_false_iff _).1 hc) hgood
      | true => rfl
    exact lp_calls_pass w s p hf hm h hn

/-- Witness for C8 in the example world: the library "hollow" exports nothing. -/
theorem C8_names_check_witness :
    (loadedLib demo fresh ⟨"hollow", "Hollow"⟩).1 = []
    ∧ (LoadPlugin demo fresh ⟨"hollow", "Hollow"⟩).ret = none
    ∧ Event.Instantiate "Hollow" ∉ (LoadPlugin demo fresh ⟨"hollow", "Hollow"⟩).trace :=
  have h := (C8_names_check demo fresh ⟨"hollow", "Hollow"⟩ (by decide) (by decide)
    (by decide)).1 (Or.inl (by decide))
  ⟨by decide, h.1, h.2.2⟩

/-- Counterexample to C10 as stated: after the physics library has been loaded,
a descriptor asks for "Physics" from the render library, which exports only
"Render".  The loader still instantiates "Physics", so `LoadPlugin` returns
a handle and the registry grows. -/
theorem C10_name_from_earlier_library :
    (loadedLib demo (LoadPlugin demo fresh ⟨"physics", "Physics"⟩).state
        ⟨"render", "Physics"⟩).1 = ["Render"]
    ∧ "Physics" ∉ (loadedLib demo (LoadPlugin demo fresh ⟨"physics", "Physics"⟩).state
        ⟨"render", "Physics"⟩).1
    ∧ (LoadPlugin demo (LoadPlugin demo fresh ⟨"physics", "Physics"⟩).state
        ⟨"render", "Physics"⟩).ret = some (some 3)
    ∧ (LoadPlugin demo fresh ⟨"physics", "Physics"⟩).state.systemPluginsAdded = [some 1]
    ∧ (LoadPlugin demo (LoadPlugin demo fresh ⟨"physics", "Physics"⟩).state
        ⟨"render", "Physics"⟩).state.systemPluginsAdded = [some 1, some 3] := by
  decide

/-- C10 (amended): when the library is found and its names pass the check, and
`Instantiate(entryPointName)` yields no object, `LoadPlugin` returns absent,
ends with the "could not instantiate" diagnostic and leaves the registry
unchanged.  The requested name is not compared with the names `LoadLib`
enumerated: whenever `Instantiate` yields an object with the `System`
interface, `LoadPlugin` returns it and registers it (the registry afterwards is
the registry before with that handle inserted). -/
theorem C10_instantiate_decides {σ ε : Type} (w : World σ ε) (s : SystemLoaderPrivate σ)
    (p : Plugin) (hf : p.Filename ≠ "") (hm : p.Name ≠ "") (h : pathToLib w s p ≠ "")
    (hn : namesPass (loadedLib w s p).1 = true) :
    ((instantiated w s p).1 = none →
      (LoadPlugin w s p).ret = none
      ∧ (LoadPlugin w s p).trace.getLast?
          = some (Event.ignerr (msgNoInstance p (pathToLib w s p)))
      ∧ (LoadPlugin w s p).state.systemPluginsAdded = s.systemPluginsAdded)
    ∧ (∀ i, (instantiated w s p).1 = some i → w.HasInterfaceSystem i = true →
      (LoadPlugin w s p).ret = some (some i)
      ∧ (LoadPlugin w s p).state.systemPluginsAdded
          = w.ptrOrder.insert (some i) s.systemPluginsAdded
      ∧ some i ∈ (LoadPlugin w s p).state.systemPluginsAdded
      ∧ (∀ x, x ∈ (LoadPlugin w s p).state.systemPluginsAdded ↔
          x = some i ∨ x ∈ s.systemPluginsAdded)) := by
  constructor
  · intro hi
    rw [lp_noInstance w s p hf hm h hn hi]
    exact ⟨rfl, rfl, rfl⟩
  · intro i hi hs
    rw [lp_ok w s p i hf hm h hn hi hs]
    refine ⟨rfl, rfl, ?_, ?_⟩
    · exact (w.ptrOrder.mem_insert (some i) (some i) s.systemPluginsAdded).2 (Or.inl rfl)
    · intro x
      exact w.ptrOrder.mem_insert (some i) x s.systemPluginsAdded

/-- Witness for C10 in the example world: a fresh loader asked for "Physics" from
the render library cannot instantiate it. -/
theorem C10_instantiate_decides_witness :
    (instantiated demo fresh ⟨"render", "Physics"⟩).1 = none
    ∧ (LoadPlugin demo fresh ⟨"render", "Physics"⟩).ret = none
    ∧ (LoadPlugin demo fresh ⟨"render", "Physics"⟩).state.systemPluginsAdded = [] :=
  have h := (C10_instantiate_decides demo fresh ⟨"render", "Physics"⟩ (by decide) (by decide)
    (by decide) (by decide)).1 (by decide)
  ⟨by decide, h.1, h.2.2⟩

/-! ## The combined search list -/

theorem foldl_insertUnique_eq (l acc : List String) :
    ∃ rest, l.foldl insertUnique acc = acc ++ rest ∧ ∀ x ∈ rest, x ∉ acc ∧ x ∈ l := by
  induction l generalizing acc with
  | nil => exact ⟨[], by simp, by simp⟩
  | cons y ys ih =>
    rw [List.foldl_cons]
    by_cases hy : y ∈ acc
    · obtain ⟨rest, h1, h2⟩ := ih acc
      refine ⟨rest, ?_, ?_⟩
      · simp [insertUnique, hy, h1]
      · intro x hx
        exact ⟨(h2 x hx).1, List.mem_cons_of_mem _ (h2 x hx).2⟩
    · obtain ⟨rest, h1, h2⟩ := ih (acc ++ [y])
      refine ⟨y :: rest, ?_, ?_⟩
      · simp [insertUnique, hy, h1]
      · intro x hx
        rcases List.mem_cons.1 hx with rfl | hx
        · exact ⟨hy, List.mem_cons_self _ _⟩
        · have := h2 x hx
          refine ⟨?_, List.mem_cons_of_mem _ this.2⟩
          intro c
          exact this.1 (List.mem_append_left _ c)

theorem mem_foldl_insertUnique (l acc : List String) (x : String) :
    x ∈ l.foldl insertUnique acc ↔ x ∈ acc ∨ x ∈ l := by
  induction l generalizing acc with
  | nil => simp
  | cons y ys ih =>
    rw [List.foldl_cons, ih]
    by_cases hy : y ∈ acc
    · simp only [insertUnique, hy, if_true, List.mem_cons]
      constructor
      · rintro (h | h)
        · exact Or.inl h
        · exact Or.inr (Or.inr h)
      · rintro (h | rfl | h)
        · exact Or.inl h
        · exact Or.inl hy
        · exact Or.inr h
    · simp only [insertUnique, hy, if_false, List.mem_append, List.mem_singleton, List.mem_cons]
      tauto

theorem mem_uniq (l : List String) (x : String) : x ∈ uniq l ↔ x ∈ l := by
  unfold uniq
  rw [mem_foldl_insertUnique]
  simp

theorem uniq_append (a b : List String) : uniq (a ++ b) = b.foldl insertUnique (uniq a) := by
  unfold uniq
  rw [List.foldl_append]

theorem findSome_skip {β : Type} (f : String → Option β) (acc l : List String) (x : String)
    (hx : x ∈ acc) : (acc ++ x :: l).findSome? f = (acc ++ l).findSome? f := by
  rw [List.findSome?_append, List.findSome?_append, List.findSome?_cons]
  cases hacc : acc.findSome? f with
  | some v => simp
  | none =>
    have := (List.findSome?_eq_none_iff.1 hacc) x hx
    simp [this]

theorem findSome_foldl_insertUnique {β : Type} (f : String → Option β) (l acc : List String) :
    (l.foldl insertUnique acc).findSome? f = (acc ++ l).findSome? f := by
  induction l generalizing acc with
  | nil => simp
  | cons y ys ih =>
    rw [List.foldl_cons, ih]
    by_cases hy : y ∈ acc
    · simp only [insertUnique, hy, if_true]
      exact (findSome_skip f acc ys y hy).symm
    · simp [insertUnique, hy]

theorem firstMatch_uniq {σ ε : Type} (w : World σ ε) (l : List String) (libName : String) :
    firstMatch w (uniq l) libName = firstMatch w l libName := by
  unfold firstMatch uniq
  rw [findSome_foldl_insertUnique]
  simp

theorem foldl_AddPluginPaths (l : List String) (sp : SystemPaths) :
    l.foldl (fun sp path => sp.AddPluginPaths path) sp
      = ⟨sp.pluginPathEnv, sp.pluginPaths ++ l⟩ := by
  induction l generalizing sp with
  | nil => simp
  | cons y ys ih =>
    rw [List.foldl_cons, ih]
    simp [SystemPaths.AddPluginPaths]

theorem flatten_sources {σ ε : Type} (w : World σ ε) (s : SystemLoaderPrivate σ) :
    (sources w s).flatten
      = pathsFromEnv w pluginPathEnv ++ s.systemPluginPaths
          ++ [homeDefault w, w.IGN_GAZEBO_PLUGIN_INSTALL_DIR] := by
  simp [sources]

theorem searchListOf_eq {σ ε : Type} (w : World σ ε) (s : SystemLoaderPrivate σ) :
    searchListOf w s = uniq (sources w s).flatten := by
  rw [flatten_sources]
  unfold searchListOf systemPathsOf SystemPaths.searchList
  simp only [foldl_AddPluginPaths]
  simp [SystemPaths.AddPluginPaths, SystemPaths.SetPluginPathEnv, SystemPaths.new, homeDefault]

theorem pathToLib_eq {σ ε : Type} (w : World σ ε) (s : SystemLoaderPrivate σ) (p : Plugin) :
    pathToLib w s p = firstMatch w (sources w s).flatten p.Filename := by
  rw [← firstMatch_uniq, ← searchListOf_eq]
  rfl

/-- In a list where only `a` and possibly later entries match, the first match
is the one at `a`. -/
theorem findSome_first {β : Type} (f : String → Option β) (hi lo : List String) (a : String)
    (v : β) (ha : a ∈ hi) (hv : f a = some v)
    (hothers : ∀ d, d ≠ a → f d ≠ none → d ∉ hi) :
    (hi ++ lo).findSome? f = some v := by
  induction hi with
  | nil => simp at ha
  | cons x xs ih =>
    rw [List.cons_append, List.findSome?_cons]
    by_cases hx : x = a
    · subst hx; simp [hv]
    · have hnone : f x = none := by
        by_contra c
        exact hothers x hx c (List.mem_cons_self _ _)
      simp only [hnone]
      apply ih
      · rcases List.mem_cons.1 ha with h | h
        · exact absurd h.symm hx
        · exact h
      · intro d hd hfd hmem
        exact hothers d hd hfd (List.mem_cons_of_mem _ hmem)

theorem indexOf_uniq_lt (hi lo : List String) (a b : String) (ha : a ∈ hi)
    (hb : b ∉ hi) :
    List.indexOf a (uniq (hi ++ lo)) < List.indexOf b (uniq (hi ++ lo)) := by
  rw [uniq_append]
  obtain ⟨rest, h1, _⟩ := foldl_insertUnique_eq lo (uniq hi)
  rw [h1]
  have ha2 : a ∈ uniq hi := (mem_uniq hi a).2 ha
  have hb2 : b ∉ uniq hi := fun c => hb ((mem_uniq hi b).1 c)
  rw [List.indexOf_append_of_mem ha2, List.indexOf_append_of_not_mem hb2]
  have := List.indexOf_lt_length.2 ha2
  omega

theorem flatten_take_drop {σ ε : Type} (w : World σ ε) (s : SystemLoaderPrivate σ) (n : Nat) :
    (sources w s).flatten
      = ((sources w s).take n).flatten ++ ((sources w s).drop n).flatten := by
  rw [← List.flatten_append, List.take_append_drop]

theorem findSome_of_indexOf_lt {β : Type} (f : String → Option β) (l : List String)
    (a b : String) (v : β) (ha : a ∈ l) (hv : f a = some v)
    (honly : ∀ d, f d ≠ none → d = a ∨ d = b)
    (hlt : List.indexOf a l < List.indexOf b l) : l.findSome? f = some v := by
  induction l with
  | nil => simp at ha
  | cons x xs ih =>
    rw [List.findSome?_cons]
    by_cases hx : x = a
    · subst hx; simp [hv]
    · have hxb : x ≠ b := by
        intro c
        rw [List.indexOf_cons_eq _ c] at hlt
        exact Nat.not_lt_zero _ hlt
      have hnone : f x = none := by
        by_contra c
        rcases honly x c with h | h
        · exact hx h
        · exact hxb h
      simp only [hnone]
      apply ih
      · rcases List.mem_cons.1 ha with h | h
        · exact absurd h.symm hx
        · exact h
      · rw [List.indexOf_cons_ne _ hx, List.indexOf_cons_ne _ hxb] at hlt
        exact Nat.lt_of_succ_lt_succ hlt

theorem indexOf_lt_in_combined (env reg rest : List String) (a b : String) (ha : a ∈ reg)
    (hb : b ∉ env) (hlt : List.indexOf a reg < List.indexOf b reg) :
    List.indexOf a (env ++ reg ++ rest) < List.indexOf b (env ++ reg ++ rest) := by
  rw [List.append_assoc]
  have hbr : List.indexOf a (reg ++ rest) < List.indexOf b (reg ++ rest) := by
    rw [List.indexOf_append_of_mem ha]
    by_cases hbm : b ∈ reg
    · rw [List.indexOf_append_of_mem hbm]; exact hlt
    · rw [List.indexOf_append_of_not_mem hbm]
      have := List.indexOf_lt_length.2 ha
      omega
  rw [List.indexOf_append_of_not_mem hb]
  by_cases hae : a ∈ env
  · rw [List.indexOf_append_of_mem hae]
    have := List.indexOf_lt_length.2 hae
    omega
  · rw [List.indexOf_append_of_not_mem hae]
    omega

theorem registerAll_perm {σ ε : Type} (w : World σ ε) (ps : List String)
    (s : SystemLoaderPrivate σ) (hd : (s.systemPluginPaths ++ ps).Nodup) :
    (registerAll w s ps).systemPluginPaths.Perm (s.systemPluginPaths ++ ps) := by
  induction ps generalizing s with
  | nil => simp [registerAll]
  | cons y ys ih =>
    have hy : y ∉ s.systemPluginPaths := by
      intro c
      have := List.disjoint_of_nodup_append hd c
      exact this (List.mem_cons_self _ _)
    have hstep : (AddSystemPluginPath w s y).systemPluginPaths.Perm (y :: s.systemPluginPaths) := by
      unfold AddSystemPluginPath HashOrder.insert
      simp only [hy, if_false]
      exact w.pathOrder.place_perm y s.systemPluginPaths hy
    have hmid : ((AddSystemPluginPath w s y).systemPluginPaths ++ ys).Perm
        (s.systemPluginPaths ++ y :: ys) :=
      (hstep.append_right ys).trans List.perm_middle.symm
    have hd2 : ((AddSystemPluginPath w s y).systemPluginPaths ++ ys).Nodup :=
      hmid.nodup_iff.2 hd
    have := ih (AddSystemPluginPath w s y) hd2
    exact this.trans hmid

/-- Counterexample to C4 as stated: the install default /usr/lib/gz is also
registered with `AddSystemPluginPath`.  The combined list keeps it once, at the
position of the registered source, so the install default is not last and
stands before the home default. -/
theorem C4_install_not_last :
    (registerAll demo fresh ["/usr/lib/gz"]).systemPluginPaths = ["/usr/lib/gz"]
    ∧ demo.IGN_GAZEBO_PLUGIN_INSTALL_DIR = "/usr/lib/gz"
    ∧ homeDefault demo = "/home/u/.ignition/gazebo/plugins"
    ∧ searchListOf demo (registerAll demo fresh ["/usr/lib/gz"])
        = ["/env1", "/env2", "/usr/lib/gz", "/home/u/.ignition/gazebo/plugins"]
    ∧ (searchListOf demo (registerAll demo fresh ["/usr/lib/gz"])).getLast?
        ≠ some demo.IGN_GAZEBO_PLUGIN_INSTALL_DIR
    ∧ List.indexOf demo.IGN_GAZEBO_PLUGIN_INSTALL_DIR
          (searchListOf demo (registerAll demo fresh ["/usr/lib/gz"]))
        < List.indexOf (homeDefault demo)
          (searchListOf demo (registerAll demo fresh ["/usr/lib/gz"])) := by
  decide

/-- C4 (amended): the combined search list handed to `FindSharedLibrary` is built
from the four sources in priority order: the directories of
IGN_GAZEBO_SYSTEM_PLUGIN_PATH, the registered directories, the home default
(home directory followed by "/.ignition/gazebo/plugins") and the install
default, each directory listed once, at its first occurrence.  The home and
install defaults are in the list on every call.  A directory contributed by
one of the first `n` sources precedes every directory that none of the first
`n` sources contributes; the install default is last when no higher source
lists it.  Hence a library present in a directory of one of the first `n`
sources, and otherwise only in directories that none of the first `n` sources
contributes, resolves to that directory. -/
theorem C4_search_priority {σ ε : Type} (w : World σ ε) (s : SystemLoaderPrivate σ)
    (p : Plugin) :
    (p.Filename ≠ "" → p.Name ≠ "" →
      (LoadPlugin w s p).trace.head?
        = some (Event.FindSharedLibrary (searchListOf w s) p.Filename))
    ∧ searchListOf w s
        = uniq (pathsFromEnv w "IGN_GAZEBO_SYSTEM_PLUGIN_PATH" ++ s.systemPluginPaths
            ++ [(w.env w.IGN_HOMEDIR).getD "" ++ "/.ignition/gazebo/plugins",
                w.IGN_GAZEBO_PLUGIN_INSTALL_DIR])
    ∧ homeDefault w ∈ searchListOf w s
    ∧ w.IGN_GAZEBO_PLUGIN_INSTALL_DIR ∈ searchListOf w s
    ∧ (∀ n a b, a ∈ ((sources w s).take n).flatten → b ∉ ((sources w s).take n).flatten →
        List.indexOf a (searchListOf w s) < List.indexOf b (searchListOf w s))
    ∧ (w.IGN_GAZEBO_PLUGIN_INSTALL_DIR ∉ ((sources w s).take 3).flatten →
        (searchListOf w s).getLast? = some w.IGN_GAZEBO_PLUGIN_INSTALL_DIR)
    ∧ (∀ n a path, a ∈ ((sources w s).take n).flatten →
        w.libraryIn a p.Filename = some path →
        (∀ d, d ≠ a → w.libraryIn d p.Filename ≠ none → d ∉ ((sources w s).take n).flatten) →
        pathToLib w s p = path) := by
  refine ⟨?_, ?_, ?_, ?_, ?_, ?_, ?_⟩
  · intro hf hm
    cases loadCase_total w s p with
    | emptyArgument h =>
      rcases h with h | h
      · exact absurd h hf
      · exact absurd h hm
    | notFound hf hm h => rw [lp_notFound w s p hf hm h]; rfl
    | badNames hf hm h hn => rw [lp_badNames w s p hf hm h hn]; rfl
    | noInstance hf hm h hn hi => rw [lp_noInstance w s p hf hm h hn hi]; rfl
    | noSystem i hf hm h hn hi hs => rw [lp_noSystem w s p i hf hm h hn hi hs]; rfl
    | ok i hf hm h hn hi hs => rw [lp_ok w s p i hf hm h hn hi hs]; rfl
  · rw [searchListOf_eq, flatten_sources]
    rfl
  · rw [searchListOf_eq, mem_uniq, flatten_sources]
    simp
  · rw [searchListOf_eq, mem_uniq, flatten_sources]
    simp
  · intro n a b ha hb
    rw [searchListOf_eq, flatten_take_drop w s n]
    exact indexOf_uniq_lt _ _ a b ha hb
  · intro hlast
    rw [searchListOf_eq, flatten_take_drop w s 3, uniq_append]
    have hdrop : ((sources w s).drop 3).flatten = [w.IGN_GAZEBO_PLUGIN_INSTALL_DIR] := by
      simp [sources]
    have hnot : w.IGN_GAZEBO_PLUGIN_INSTALL_DIR ∉ uniq ((sources w s).take 3).flatten :=
      fun c => hlast ((mem_uniq _ _).1 c)
    rw [hdrop]
    simp [insertUnique, hnot]
  · intro n a path ha hv hothers
    rw [pathToLib_eq, flatten_take_drop w s n]
    unfold firstMatch
    rw [findSome_first (fun d => w.libraryIn d p.Filename) _ _ a path ha hv hothers]
    rfl

/-- Witness for C4 in the example world: the physics library exists under /env2
(from the environment variable) and under the install default; the one under
/env2 is found. -/
theorem C4_search_priority_witness :
    searchListOf demo fresh
      = ["/env1", "/env2", "/home/u/.ignition/gazebo/plugins", "/usr/lib/gz"]
    ∧ demo.libraryIn "/usr/lib/gz" "physics" = some "/usr/lib/gz/libphysics.so"
    ∧ pathToLib demo fresh ⟨"physics", "Physics"⟩ = "/env2/libphysics.so" :=
  ⟨by decide, by decide,
    (C4_search_priority demo fresh ⟨"physics", "Physics"⟩).2.2.2.2.2.2 1 "/env2"
      "/env2/libphysics.so" (by decide) (by decide)
      (by
        intro d hne hlib hmem
        have hl : ((sources demo fresh).take 1).flatten = ["/env1", "/env2"] := by decide
        rw [hl] at hmem
        simp only [List.mem_cons, List.mem_singleton, List.not_mem_nil, or_false] at hmem
        rcases hmem with h | h
        · subst h
          exact hlib (by decide)
        · exact hne h)⟩

/-- Counterexample to C9 as stated: /a is registered before /b, but the set
iterates /b first, so /b is added to the search list before /a and the library
present under both resolves to the one under /b. -/
theorem C9_not_registration_order :
    (registerAll demo fresh ["/a", "/b"]).systemPluginPaths = ["/b", "/a"]
    ∧ searchListOf demo (registerAll demo fresh ["/a", "/b"])
        = ["/env1", "/env2", "/b", "/a", "/home/u/.ignition/gazebo/plugins", "/usr/lib/gz"]
    ∧ demo.libraryIn "/a" "shared" = some "/a/libshared.so"
    ∧ demo.libraryIn "/b" "shared" = some "/b/libshared.so"
    ∧ pathToLib demo (registerAll demo fresh ["/a", "/b"]) ⟨"shared", "Shared"⟩
        = "/b/libshared.so" := by
  decide

/-- C9 (amended): explicitly registered directories are contributed to the
combined search list in the iteration order of `systemPluginPaths`.  After
distinct paths p1, ..., pn have been registered on a new loader, that order is
some permutation of p1, ..., pn (not necessarily the registration order); the
search list is the environment directories, then the registered directories
in that order, then the two defaults; and a library present only under two
directories, of which the registered one is iterated first (the other not
being an environment directory), resolves to the one iterated first. -/
theorem C9_registered_in_iteration_order {σ ε : Type} (w : World σ ε) (l : σ)
    (ps : List String) (p : Plugin) (hd : ps.Nodup) :
    (registerAll w (SystemLoader.new l) ps).systemPluginPaths.Perm ps
    ∧ searchListOf w (registerAll w (SystemLoader.new l) ps)
        = uniq (pathsFromEnv w pluginPathEnv
            ++ (registerAll w (SystemLoader.new l) ps).systemPluginPaths
            ++ [homeDefault w, w.IGN_GAZEBO_PLUGIN_INSTALL_DIR])
    ∧ (∀ a b path, a ∈ (registerAll w (SystemLoader.new l) ps).systemPluginPaths →
        b ∉ pathsFromEnv w pluginPathEnv →
        List.indexOf a (registerAll w (SystemLoader.new l) ps).systemPluginPaths
          < List.indexOf b (registerAll w (SystemLoader.new l) ps).systemPluginPaths →
        w.libraryIn a p.Filename = some path →
        (∀ d, w.libraryIn d p.Filename ≠ none → d = a ∨ d = b) →
        pathToLib w (registerAll w (SystemLoader.new l) ps) p = path) := by
  refine ⟨?_, ?_, ?_⟩
  · have := registerAll_perm w ps (SystemLoader.new l) (by simpa [SystemLoader.new] using hd)
    simpa [SystemLoader.new] using this
  · rw [searchListOf_eq, flatten_sources]
  · intro a b path ha hb hlt hv honly
    rw [pathToLib_eq, flatten_sources]
    unfold firstMatch
    rw [findSome_of_indexOf_lt (fun d => w.libraryIn d p.Filename) _ a b path
      (by simp [ha]) hv honly (indexOf_lt_in_combined _ _ _ a b ha hb hlt)]
    rfl

/-- Witness for C9 in the example world: /a and /b registered in that order. -/
theorem C9_registered_in_iteration_order_witness :
    ["/a", "/b"].Nodup
    ∧ (registerAll demo (SystemLoader.new DemoLoader.new) ["/a", "/b"]).systemPluginPaths.Perm
        ["/a", "/b"] :=
  ⟨by decide,
    (C9_registered_in_iteration_order demo DemoLoader.new ["/a", "/b"] ⟨"shared", "Shared"⟩
      (by decide)).1⟩

end GzSim
